import Mathlib

/-!
Verification of the Swimmer-App training logbook (src/swimmer.py).

The embedding models the computational core of the app:
* the weekly load aggregation of `dashboard_page` (lines 144-158),
* the Monday-start week bucketing (`to_period('W').start_time`, lines 150, 161, 165),
* the CSS calculator of `css_test_page` (lines 263-276),
* the session-logging submission path of `log_session_page` (lines 112-134),
* the next-training-session scan of `dashboard_page` (lines 211-224).

Dates are modelled as integer day counts since 1970-01-01 (a Thursday), so a
day `d` has Python weekday `(d + 3) % 7` (0 = Monday).  Numeric float columns
are modelled as exact rationals, except that the pandas sample standard
deviation (which is NaN for a single-row group) and everything downstream of
it (monotony, strain) is modelled as `Option ℝ`, with `none` playing the role
of NaN.
-/

namespace Swimmer

/-- Python `date.weekday()`: 0 = Monday, for a day count since 1970-01-01. -/
def weekday (d : ℤ) : ℤ := (d + 3) % 7

/-- `to_period('W').start_time` (pandas weekly period, Monday start): the
Monday on or before day `d`. -/
def weekStart (d : ℤ) : ℤ := d - (d + 3) % 7

/-- `pd.Timestamp.now().to_period('W').start_time` (line 161). -/
def currentWeek (now : ℤ) : ℤ := weekStart now

/-- `current_week - pd.Timedelta(days=7)` (line 165). -/
def lastWeekStart (now : ℤ) : ℤ := currentWeek now - 7

/-- The fields of a Session record used by the weekly aggregation. -/
structure Session where
  dateDay : ℤ
  swimmer : String
  distance_m : ℚ
  rpe : ℚ
  deriving DecidableEq

/-- `df['distance_km'] = df['distance_m'] / 1000` (line 146). -/
def distance_km (s : Session) : ℚ := s.distance_m / 1000

/-- `df['load'] = df['distance_km'] * df['rpe']` (line 147). -/
def load (s : Session) : ℚ := distance_km s * s.rpe

/-- `df['week']`: the session's week bucket (line 150). -/
def weekOf (s : Session) : ℤ := weekStart s.dateDay

/-- The rows of the groupby group for key `k = (week, swimmer)` (line 151). -/
def bucketOf (l : List Session) (k : ℤ × String) : List Session :=
  l.filter fun s => decide ((weekOf s, s.swimmer) = k)

/-- The distinct `(week, swimmer)` keys of the groupby (line 151). -/
def sessionKeys (l : List Session) : List (ℤ × String) :=
  (l.map fun s => (weekOf s, s.swimmer)).dedup

/-- `'distance_km': 'sum'` (line 152). -/
def total_distance_km (l : List Session) : ℚ := (l.map distance_km).sum

/-- `'load': 'sum'` (line 153). -/
def total_load (l : List Session) : ℚ := (l.map load).sum

/-- `'rpe': 'mean'` (line 154). -/
def mean_rpe (l : List Session) : ℚ := (l.map Session.rpe).sum / (l.length : ℚ)

/-- The sample variance (N-1 denominator) of the group's rpe column:
the square of what pandas `std` computes when the group has at least two
rows. -/
def var_rpe (l : List Session) : ℚ :=
  (l.map fun s => (s.rpe - mean_rpe l) ^ 2).sum / ((l.length : ℚ) - 1)

/-- `'rpe': 'std'` (line 154): pandas sample standard deviation (ddof = 1),
which is NaN (here `none`) for a group with a single row. -/
noncomputable def std_rpe (l : List Session) : Option ℝ :=
  if l.length ≤ 1 then none else some (Real.sqrt ((var_rpe l : ℚ) : ℝ))

open Classical in
/-- `monotony = mean_rpe / std_rpe.replace(0, 1)` (line 157): the divisor 0 is
replaced by 1; a NaN std (single-row group) propagates to a NaN monotony. -/
noncomputable def monotony (l : List Session) : Option ℝ :=
  (std_rpe l).map fun s => ((mean_rpe l : ℚ) : ℝ) / (if s = 0 then 1 else s)

/-- `strain = monotony * total_load` (line 158); NaN propagates. -/
noncomputable def strain (l : List Session) : Option ℝ :=
  (monotony l).map fun m => m * ((total_load l : ℚ) : ℝ)

/-- One output row of the weekly aggregation (line 156 column names). -/
structure WeeklyAgg where
  total_distance_km : ℚ
  total_load : ℚ
  mean_rpe : ℚ
  std_rpe : Option ℝ
  monotony : Option ℝ
  strain : Option ℝ

/-- The weekly aggregate row for key `k = (week, swimmer)` (lines 151-158). -/
noncomputable def weeklyAgg (l : List Session) (k : ℤ × String) : WeeklyAgg :=
  ⟨total_distance_km (bucketOf l k), total_load (bucketOf l k), mean_rpe (bucketOf l k),
    std_rpe (bucketOf l k), monotony (bucketOf l k), strain (bucketOf l k)⟩

/-- A CSSTests row as written by `css_test_page` (lines 266-272). -/
structure CssTest where
  date : String
  swimmer : String
  time_200_s : ℚ
  time_400_s : ℚ
  css_s_per_100 : ℚ
  deriving DecidableEq

/-- The user-visible outcome of the CSS form submission. -/
inductive CssOutcome where
  | success (css : ℚ)
  | invalidInput
  deriving DecidableEq

/-- `css_test_page` submission handler (lines 263-276): if both times are
strictly positive, compute `(t400 - t200) / 2`, append the test row to the
CSSTests store and report success; otherwise report an error and leave the
store unchanged. -/
def cssSubmit (date swimmer : String) (t200 t400 : ℚ) (store : List CssTest) :
    List CssTest × CssOutcome :=
  if 0 < t200 ∧ 0 < t400 then
    (store ++ [⟨date, swimmer, t200, t400, (t400 - t200) / 2⟩],
      CssOutcome.success ((t400 - t200) / 2))
  else
    (store, CssOutcome.invalidInput)

/-- A Sessions row as written by `log_session_page` (lines 118-132);
`moving_time_min` is stored as `None` when the entered value is not
positive (line 123). -/
structure SessionRow where
  date : ℤ
  environment : String
  distance_m : ℚ
  total_time_min : ℚ
  moving_time_min : Option ℚ
  rest_estimate_min : ℚ
  sets_text : String
  css_pace : String
  avg_pace : String
  rpe : ℕ
  notes : String
  team : String
  swimmer : String
  deriving DecidableEq

/-- The user-visible outcome of the Log Session form submission. -/
inductive LogOutcome where
  | success
  | invalidInput
  deriving DecidableEq

/-- `log_session_page` submission handler (lines 112-134): `strptime` of the
date string (modelled as the `parseDate` argument, `none` when a
`ValueError` is raised) decides whether the submission is rejected with no
write, or exactly one row is appended. -/
def logSessionSubmit (parseDate : String → Option ℤ) (dateStr env : String)
    (dist totalT movingT restT : ℚ) (setsText cssPace avgPace : String)
    (rpe : ℕ) (notes team swimmer : String) (store : List SessionRow) :
    List SessionRow × LogOutcome :=
  match parseDate dateStr with
  | none => (store, LogOutcome.invalidInput)
  | some d =>
      (store ++ [⟨d, env, dist, totalT, if movingT > 0 then some movingT else none,
        restT, setsText, cssPace, avgPace, rpe, notes, team, swimmer⟩],
        LogOutcome.success)

/-- Python `pat in s` substring membership, on character lists. -/
def hasSubstr (pat : List Char) : List Char → Bool
  | [] => pat.isEmpty
  | c :: t => pat.isPrefixOf (c :: t) || hasSubstr pat t

/-- `"No training" in entry` (line 215). -/
def containsNoTraining (entry : String) : Bool :=
  hasSubstr "No training".data entry.data

/-- The static weekly schedule of `dashboard_page` (lines 197-205). -/
def scheduleStrings : List String :=
  ["Monday - All swimmers, 5:45pm @ Claremont Pool",
   "Tuesday - No training",
   "Wednesday - Masters session, 6:00pm @ Scarborough Pool",
   "Thursday - No training",
   "Friday - Technique session, 5:30pm @ Bold Park",
   "Saturday - Long swim, 7:00am @ Claremont Pool",
   "Sunday - Recovery swim, 8:00am @ Claremont Pool"]

/-- `training_schedule` as a function of the day index (lines 197-205). -/
def trainingSchedule (i : Fin 7) : String := scheduleStrings.getD i.val ""

/-- The `while days_ahead < 7` loop of lines 211-217, with
`fuel = 7 - days_ahead`; returns the final `(days_ahead, next_day)`. -/
def scanAux (sched : Fin 7 → String) (cd : ℕ) : ℕ → ℕ → ℕ → ℕ × ℕ
  | 0, daysAhead, nextDay => (daysAhead, nextDay)
  | fuel + 1, daysAhead, _ =>
      let nd := (cd + daysAhead) % 7
      if containsNoTraining (sched ⟨nd, Nat.mod_lt _ (by decide)⟩) then
        scanAux sched cd fuel (daysAhead + 1) nd
      else
        (daysAhead, nd)

/-- The next-training-session lookup (lines 211-217): starting from the
current weekday `cd`, scan up to 7 days; the result is the final
`(days_ahead, next_day)` pair the code uses for `next_date` and
`session_info`. -/
def nextTrainingScan (sched : Fin 7 → String) (cd : ℕ) : ℕ × ℕ :=
  scanAux sched cd 7 0 cd

/-- Spec example session: swimmer A, 1000 m at rpe 4, on a Monday (day 4,
i.e. 1970-01-05). -/
def ex4a : Session := ⟨4, "A", 1000, 4⟩

/-- Spec example session: swimmer A, 2000 m at rpe 6, same week. -/
def ex4b : Session := ⟨5, "A", 2000, 6⟩

/-- The two-session example collection of the spec. -/
def exWeek : List Session := [ex4a, ex4b]

/-- A lone session, giving a single-session (week, swimmer) bucket. -/
def exSingle : Session := ⟨4, "A", 1000, 5⟩

/-- A two-session bucket with identical rpe, hence zero variance. -/
def exZeroVar : List Session := [⟨4, "A", 1000, 5⟩, ⟨5, "A", 2000, 5⟩]

/-- C5: the Load Aggregator buckets every date to the start of the
Monday-start week containing it (the bucket start is a Monday, lies at most
6 days before the date, and two dates share a bucket exactly when they lie
in the same Monday-start week), and the current week and last week are
derived with the same convention, last week being exactly 7 days before the
start of the current week. -/
theorem week_bucketing : ∀ d : ℤ,
    weekday (weekStart d) = 0 ∧
    weekStart d ≤ d ∧ d < weekStart d + 7 ∧
    (∀ e : ℤ, weekStart e = weekStart d ↔ weekStart d ≤ e ∧ e < weekStart d + 7) ∧
    currentWeek d = weekStart d ∧
    lastWeekStart d = weekStart d - 7 := by
  intro d
  unfold weekday weekStart currentWeek lastWeekStart
  refine ⟨by omega, by omega, by omega, fun e => ⟨fun h => by omega, fun h => by omega⟩,
    rfl, rfl⟩

/-- C2: for strictly positive `t200` and `t400` the CSS calculator succeeds
with `(t400 - t200) / 2`, and in particular `css(60, 130) = 35`. -/
theorem css_formula (date swimmer : String) (t200 t400 : ℚ) (store : List CssTest)
    (h200 : 0 < t200) (h400 : 0 < t400) :
    (cssSubmit date swimmer t200 t400 store).2 = CssOutcome.success ((t400 - t200) / 2) ∧
    (cssSubmit "" "" 60 130 []).2 = CssOutcome.success 35 := by
  constructor
  · unfold cssSubmit
    rw [if_pos ⟨h200, h400⟩]
  · unfold cssSubmit
    rw [if_pos (by norm_num)]
    norm_num

/-- Witness for C2 at `t200 = 60`, `t400 = 130`. -/
theorem css_formula_witness : (cssSubmit "" "" 60 130 []).2 = CssOutcome.success 35 :=
  (css_formula "" "" 60 130 [] (by norm_num) (by norm_num)).2

/-- C3: when `t200 ≤ 0` or `t400 ≤ 0` the CSS calculator refuses, signals the
invalid-input error, and writes nothing to the store. -/
theorem css_rejects_nonpositive (date swimmer : String) (t200 t400 : ℚ)
    (store : List CssTest) (h : t200 ≤ 0 ∨ t400 ≤ 0) :
    cssSubmit date swimmer t200 t400 store = (store, CssOutcome.invalidInput) := by
  unfold cssSubmit
  rw [if_neg]
  rintro ⟨h200, h400⟩
  rcases h with h | h
  · exact absurd h200 (not_lt.mpr h)
  · exact absurd h400 (not_lt.mpr h)

/-- Witness for C3 at `t200 = 0`. -/
theorem css_rejects_nonpositive_witness :
    cssSubmit "" "" 0 100 [] = ([], CssOutcome.invalidInput) :=
  css_rejects_nonpositive "" "" 0 100 [] (Or.inl le_rfl)

/-- C10: for `0 < t400 < t200` the CSS calculator does not refuse: it appends
the test record carrying the negative pace `(t400 - t200) / 2` and reports
success. -/
theorem css_accepts_inverted (date swimmer : String) (t200 t400 : ℚ)
    (store : List CssTest) (h4 : 0 < t400) (hlt : t400 < t200) :
    cssSubmit date swimmer t200 t400 store =
      (store ++ [⟨date, swimmer, t200, t400, (t400 - t200) / 2⟩],
        CssOutcome.success ((t400 - t200) / 2)) ∧
    (t400 - t200) / 2 < 0 := by
  constructor
  · unfold cssSubmit
    rw [if_pos ⟨lt_trans h4 hlt, h4⟩]
  · apply div_neg_of_neg_of_pos
    · linarith
    · norm_num

/-- Witness for C10 at `t200 = 130`, `t400 = 60`. -/
theorem css_accepts_inverted_witness :
    cssSubmit "" "" 130 60 [] =
      ([⟨"", "", 130, 60, ((60 : ℚ) - 130) / 2⟩], CssOutcome.success (((60 : ℚ) - 130) / 2)) ∧
    ((60 : ℚ) - 130) / 2 < 0 :=
  css_accepts_inverted "" "" 130 60 [] (by norm_num) (by norm_num)

/-- C9: when the session date string fails to parse the submission is
rejected with the invalid-input error and nothing is appended; when it
parses, exactly one session row is appended (and the submission succeeds). -/
theorem log_session_submit_spec (parseDate : String → Option ℤ) (dateStr env : String)
    (dist totalT movingT restT : ℚ) (setsText cssPace avgPace : String)
    (rpe : ℕ) (notes team swimmer : String) (store : List SessionRow) :
    (parseDate dateStr = none →
      logSessionSubmit parseDate dateStr env dist totalT movingT restT setsText
        cssPace avgPace rpe notes team swimmer store = (store, LogOutcome.invalidInput)) ∧
    (∀ d : ℤ, parseDate dateStr = some d →
      logSessionSubmit parseDate dateStr env dist totalT movingT restT setsText
          cssPace avgPace rpe notes team swimmer store =
        (store ++ [⟨d, env, dist, totalT, if movingT > 0 then some movingT else none,
          restT, setsText, cssPace, avgPace, rpe, notes, team, swimmer⟩],
          LogOutcome.success) ∧
      (logSessionSubmit parseDate dateStr env dist totalT movingT restT setsText
          cssPace avgPace rpe notes team swimmer store).1.length = store.length + 1) := by
  constructor
  · intro h
    unfold logSessionSubmit
    rw [h]
  · intro d h
    constructor
    · unfold logSessionSubmit
      rw [h]
    · unfold logSessionSubmit
      rw [h]
      simp

/-- Witness for C9: a failing parse leaves an empty store; a succeeding
parse appends exactly one row. -/
theorem log_session_submit_witness :
    logSessionSubmit (fun _ => none) "99-Foo-xx" "pool" 1000 60 0 5 "" "" "" 5 "" "" "BVH" [] =
      (([] : List SessionRow), LogOutcome.invalidInput) ∧
    (logSessionSubmit (fun _ => some 4) "05-Jan-70" "pool" 1000 60 0 5 "" "" "" 5 "" "" "BVH"
        []).1.length = ([] : List SessionRow).length + 1 :=
  ⟨(log_session_submit_spec (fun _ => none) "99-Foo-xx" "pool" 1000 60 0 5 "" "" "" 5 "" "" "BVH"
      []).1 rfl,
   ((log_session_submit_spec (fun _ => some 4) "05-Jan-70" "pool" 1000 60 0 5 "" "" "" 5 "" ""
      "BVH" []).2 4 rfl).2⟩

/-- On a schedule whose every entry is marked "No training", the scan loop
runs its body to exhaustion: it adds `fuel` to `days_ahead` and leaves
`next_day` at the last scanned day. -/
lemma scanAux_all_no (sched : Fin 7 → String)
    (h : ∀ i : Fin 7, containsNoTraining (sched i) = true) (cd : ℕ) :
    ∀ fuel daysAhead nextDay : ℕ,
      scanAux sched cd fuel daysAhead nextDay =
        (daysAhead + fuel, if fuel = 0 then nextDay else (cd + daysAhead + (fuel - 1)) % 7) := by
  intro fuel
  induction fuel with
  | zero => intro daysAhead nextDay; simp [scanAux]
  | succ fuel ih =>
      intro daysAhead nextDay
      rw [scanAux]
      rw [h ⟨(cd + daysAhead) % 7, Nat.mod_lt _ (by decide)⟩]
      rw [if_pos rfl, ih (daysAhead + 1) ((cd + daysAhead) % 7)]
      simp only [Prod.mk.injEq]
      refine ⟨by omega, ?_⟩
      cases fuel with
      | zero => simp
      | succ m =>
          simp only [Nat.succ_ne_zero, if_false]
          have : cd + (daysAhead + 1) + (m + 1 - 1) = cd + daysAhead + (m + 1 + 1 - 1) := by
            omega
          rw [this]

/-- C8 (amended): on an all-"No training" schedule the lookup terminates
after scanning one full week (`days_ahead = 7`), but instead of signalling
"no upcoming session" it falls through the loop with
`next_day = (current_day + 6) % 7`, whose schedule entry is still a
"No training" one. -/
theorem no_training_week_scan (sched : Fin 7 → String)
    (h : ∀ i : Fin 7, containsNoTraining (sched i) = true) (cd : ℕ) :
    nextTrainingScan sched cd = (7, (cd + 6) % 7) := by
  unfold nextTrainingScan
  rw [scanAux_all_no sched h cd 7 0 cd]
  norm_num

/-- Witness for C8's amended theorem on the constant "No training"
schedule starting from Monday. -/
theorem no_training_week_scan_witness :
    nextTrainingScan (fun _ => "No training") 0 = (7, 6) := by
  have := no_training_week_scan (fun _ => "No training") (fun _ => rfl) 0
  simpa using this

/-- C8 counterexample: on the all-"No training" schedule the code does not
signal "no upcoming session": the scan ends in the ordinary fall-through
state `(days_ahead, next_day) = (7, 6)` and the session info the dashboard
renders for that day is still a "No training" schedule entry. -/
theorem no_training_week_cex :
    nextTrainingScan (fun _ => "No training") 0 = (7, 6) ∧
    containsNoTraining ((fun _ : Fin 7 => "No training") (6 : Fin 7)) = true ∧
    (fun _ : Fin 7 => "No training") (6 : Fin 7) ≠ "no upcoming session" := by
  refine ⟨by decide, by decide, by decide⟩

/-- C1 (amended): whenever `std_rpe` is the value 0 — which requires a bucket
of at least two sessions — `replace(0, 1)` substitutes divisor 1 and
`monotony = mean_rpe`; but a bucket with exactly one session has NaN
`std_rpe` (pandas sample standard deviation with the N-1 denominator), which
`replace(0, 1)` leaves untouched, so its monotony is NaN, not `mean_rpe`. -/
theorem monotony_zero_std :
    (∀ l : List Session, std_rpe l = some 0 → monotony l = some ((mean_rpe l : ℚ) : ℝ)) ∧
    (∀ s : Session, std_rpe [s] = none ∧ monotony [s] = none) := by
  constructor
  · intro l h
    unfold monotony
    rw [h]
    simp
  · intro s
    constructor
    · simp [std_rpe]
    · simp [monotony, std_rpe]

/-- Witness for C1's amended theorem: a zero-variance two-session bucket has
`monotony = mean_rpe`, and a single-session bucket has NaN monotony. -/
theorem monotony_zero_std_witness :
    monotony exZeroVar = some ((mean_rpe exZeroVar : ℚ) : ℝ) ∧ monotony [exSingle] = none :=
  ⟨monotony_zero_std.1 exZeroVar (by
      unfold std_rpe
      rw [if_neg (by decide)]
      have hv : var_rpe exZeroVar = 0 := by norm_num [var_rpe, mean_rpe, exZeroVar]
      rw [hv]
      simp),
   (monotony_zero_std.2 exSingle).2⟩

/-- C1 counterexample: a (week, swimmer) bucket containing exactly one
session has NaN monotony (`none`), not `monotony = mean_rpe` as the claim
states. -/
theorem monotony_singleton_cex :
    (weeklyAgg [exSingle] (4, "A")).monotony = none ∧
    (weeklyAgg [exSingle] (4, "A")).mean_rpe = 5 ∧
    (weeklyAgg [exSingle] (4, "A")).monotony ≠
      some (((weeklyAgg [exSingle] (4, "A")).mean_rpe : ℚ) : ℝ) := by
  have hb : bucketOf [exSingle] (4, "A") = [exSingle] := by decide
  refine ⟨?_, ?_, ?_⟩
  · simp [weeklyAgg, hb, monotony, std_rpe]
  · simp [weeklyAgg, hb]
    norm_num [mean_rpe, exSingle]
  · simp [weeklyAgg, hb, monotony, std_rpe]

lemma perm_total_distance_km {b₁ b₂ : List Session} (h : b₁.Perm b₂) :
    total_distance_km b₁ = total_distance_km b₂ :=
  (h.map distance_km).sum_eq

lemma perm_total_load {b₁ b₂ : List Session} (h : b₁.Perm b₂) :
    total_load b₁ = total_load b₂ :=
  (h.map load).sum_eq

lemma perm_mean_rpe {b₁ b₂ : List Session} (h : b₁.Perm b₂) :
    mean_rpe b₁ = mean_rpe b₂ := by
  unfold mean_rpe
  rw [(h.map Session.rpe).sum_eq, h.length_eq]

lemma perm_var_rpe {b₁ b₂ : List Session} (h : b₁.Perm b₂) :
    var_rpe b₁ = var_rpe b₂ := by
  unfold var_rpe
  rw [perm_mean_rpe h, (h.map fun s => (s.rpe - mean_rpe b₂) ^ 2).sum_eq, h.length_eq]

lemma perm_std_rpe {b₁ b₂ : List Session} (h : b₁.Perm b₂) :
    std_rpe b₁ = std_rpe b₂ := by
  unfold std_rpe
  rw [perm_var_rpe h, h.length_eq]

lemma perm_monotony {b₁ b₂ : List Session} (h : b₁.Perm b₂) :
    monotony b₁ = monotony b₂ := by
  unfold monotony
  rw [perm_std_rpe h, perm_mean_rpe h]

lemma perm_strain {b₁ b₂ : List Session} (h : b₁.Perm b₂) :
    strain b₁ = strain b₂ := by
  unfold strain
  rw [perm_monotony h, perm_total_load h]

/-- C6: the weekly aggregation is order-independent — permuting the input
Session collection leaves every (week, swimmer) aggregate row unchanged. -/
theorem order_independence (l₁ l₂ : List Session) (h : l₁.Perm l₂) :
    ∀ k : ℤ × String, weeklyAgg l₁ k = weeklyAgg l₂ k := by
  intro k
  have hb : (bucketOf l₁ k).Perm (bucketOf l₂ k) := h.filter _
  unfold weeklyAgg
  rw [perm_total_distance_km hb, perm_total_load hb, perm_mean_rpe hb, perm_std_rpe hb,
    perm_monotony hb, perm_strain hb]

/-- Witness for C6: swapping the two example sessions leaves their bucket's
aggregate row unchanged. -/
theorem order_independence_witness :
    weeklyAgg [ex4a, ex4b] (4, "A") = weeklyAgg [ex4b, ex4a] (4, "A") :=
  order_independence [ex4a, ex4b] [ex4b, ex4a] (List.Perm.swap ex4b ex4a []) (4, "A")

lemma sum_filter_not_add {α : Type*} (p : α → Bool) (f : α → ℚ) :
    ∀ l : List α,
      ((l.filter p).map f).sum + ((l.filter fun a => !p a).map f).sum = (l.map f).sum := by
  intro l
  induction l with
  | nil => simp
  | cons a t ih =>
      by_cases h : p a = true
      · rw [List.filter_cons_of_pos h, List.filter_cons_of_neg (by simp [h])]
        simp only [List.map_cons, List.sum_cons]
        rw [add_assoc, ih]
      · have h' : p a = false := by simpa using h
        rw [List.filter_cons_of_neg h, List.filter_cons_of_pos (by simp [h'])]
        simp only [List.map_cons, List.sum_cons]
        rw [← ih]
        ring

lemma sum_fibers {α β : Type*} [DecidableEq β] (κ : α → β) (f : α → ℚ) :
    ∀ ks : List β, ks.Nodup → ∀ l : List α, (∀ x ∈ l, κ x ∈ ks) →
      ((ks.map fun k => ((l.filter fun x => decide (κ x = k)).map f).sum).sum
        = (l.map f).sum) := by
  intro ks
  induction ks with
  | nil =>
      intro _ l hl
      have hnil : l = [] := by
        cases l with
        | nil => rfl
        | cons a t => exact absurd (hl a (List.mem_cons_self a t)) (List.not_mem_nil (κ a))
      subst hnil
      simp
  | cons k ks ih =>
      intro hnd l hl
      have hk : k ∉ ks := (List.nodup_cons.mp hnd).1
      have hnd' : ks.Nodup := (List.nodup_cons.mp hnd).2
      have hsub : ∀ x ∈ l.filter fun x => !decide (κ x = k), κ x ∈ ks := by
        intro x hx
        have hxl : x ∈ l := List.mem_of_mem_filter hx
        have hxk : ¬(κ x = k) := by simpa using List.of_mem_filter hx
        rcases List.mem_cons.mp (hl x hxl) with h | h
        · exact absurd h hxk
        · exact h
      have hfib : ∀ k' ∈ ks,
          (((l.filter fun x => !decide (κ x = k)).filter fun x => decide (κ x = k')).map f).sum
            = ((l.filter fun x => decide (κ x = k')).map f).sum := by
        intro k' hk'
        have hne : k' ≠ k := fun hkk => hk (hkk ▸ hk')
        rw [List.filter_filter]
        have heq : (l.filter fun a => decide (κ a = k') && !decide (κ a = k))
            = l.filter fun x => decide (κ x = k') := by
          apply List.filter_congr
          intro x _
          by_cases hx : κ x = k'
          · have hxk : ¬(κ x = k) := fun hc => hne (hx ▸ hc ▸ rfl)
            simp [hx, hxk, hne]
          · simp [hx]
        rw [heq]
      have hrec := ih hnd' (l.filter fun x => !decide (κ x = k)) hsub
      rw [List.map_congr_left fun k' hk' => hfib k' hk'] at hrec
      simp only [List.map_cons, List.sum_cons]
      rw [hrec]
      exact sum_filter_not_add (fun x => decide (κ x = k)) f l

lemma sum_distance_km (l : List Session) :
    (l.map distance_km).sum = (l.map Session.distance_m).sum / 1000 := by
  induction l with
  | nil => simp
  | cons a t ih =>
      simp only [List.map_cons, List.sum_cons, ih, distance_km]
      ring

/-- C7: mass conservation under bucketing — the sum of `total_distance_km`
over all (week, swimmer) buckets of the aggregation equals the sum of
`distance_m` over all input records, divided by 1000. -/
theorem mass_conservation (l : List Session) :
    ((sessionKeys l).map fun k => total_distance_km (bucketOf l k)).sum
      = (l.map Session.distance_m).sum / 1000 := by
  have h := sum_fibers (fun s : Session => (weekOf s, s.swimmer)) distance_km
    (sessionKeys l) (List.nodup_dedup _)
    l (fun x hx => List.mem_dedup.mpr (List.mem_map_of_mem _ hx))
  rw [← sum_distance_km l]
  exact h

lemma bucket_exWeek : bucketOf exWeek (4, "A") = exWeek := by decide

lemma mean_exWeek : mean_rpe exWeek = 5 := by
  norm_num [mean_rpe, exWeek, ex4a, ex4b]

lemma var_exWeek : var_rpe exWeek = 2 := by
  norm_num [var_rpe, mean_rpe, exWeek, ex4a, ex4b]

lemma std_exWeek : std_rpe exWeek = some (Real.sqrt 2) := by
  unfold std_rpe
  rw [if_neg (by decide), var_exWeek]
  norm_num

lemma total_load_exWeek : total_load exWeek = 16 := by
  norm_num [total_load, load, distance_km, exWeek, ex4a, ex4b]

lemma total_distance_exWeek : total_distance_km exWeek = 3 := by
  norm_num [total_distance_km, distance_km, exWeek, ex4a, ex4b]

lemma sqrt2_lb : (1.41421 : ℝ) < Real.sqrt 2 :=
  (Real.lt_sqrt (by norm_num)).mpr (by norm_num)

lemma sqrt2_ub : Real.sqrt 2 < 1.41422 :=
  (Real.sqrt_lt' (by norm_num)).mpr (by norm_num)

lemma monotony_exWeek : monotony exWeek = some (5 / Real.sqrt 2) := by
  unfold monotony
  rw [std_exWeek]
  have hne : Real.sqrt 2 ≠ 0 := ne_of_gt (Real.sqrt_pos.mpr (by norm_num))
  simp only [Option.map_some']
  rw [if_neg hne, mean_exWeek]
  norm_num

lemma strain_exWeek : strain exWeek = some (80 / Real.sqrt 2) := by
  unfold strain
  rw [monotony_exWeek, total_load_exWeek]
  simp only [Option.map_some']
  congr 1
  rw [div_mul_eq_mul_div]
  norm_num

lemma five_div_sqrt2 : (5 : ℝ) / Real.sqrt 2 = 2.5 * Real.sqrt 2 := by
  have hpos : (0 : ℝ) < Real.sqrt 2 := Real.sqrt_pos.mpr (by norm_num)
  have hsq := Real.sq_sqrt (show (0 : ℝ) ≤ 2 by norm_num)
  rw [div_eq_iff (ne_of_gt hpos)]
  nlinarith [hsq]

lemma eighty_div_sqrt2 : (80 : ℝ) / Real.sqrt 2 = 40 * Real.sqrt 2 := by
  have hpos : (0 : ℝ) < Real.sqrt 2 := Real.sqrt_pos.mpr (by norm_num)
  have hsq := Real.sq_sqrt (show (0 : ℝ) ≤ 2 by norm_num)
  rw [div_eq_iff (ne_of_gt hpos)]
  nlinarith [hsq]

/-- C4: per-session conversions and the spec's worked example — distances
[1000 m, 2000 m] with rpe [4, 6] in one (week, swimmer) bucket yield
`total_distance_km = 3`, `total_load = 16`, `mean_rpe = 5`,
`std_rpe = sqrt 2`, `monotony = 5 / sqrt 2 ≈ 3.536`, and
`strain = 80 / sqrt 2 ≈ 56.6`. -/
theorem example_aggregate :
    distance_km ex4a = 1 ∧ load ex4a = 4 ∧ distance_km ex4b = 2 ∧ load ex4b = 12 ∧
    (weeklyAgg exWeek (4, "A")).total_distance_km = 3 ∧
    (weeklyAgg exWeek (4, "A")).total_load = 16 ∧
    (weeklyAgg exWeek (4, "A")).mean_rpe = 5 ∧
    (weeklyAgg exWeek (4, "A")).std_rpe = some (Real.sqrt 2) ∧
    (weeklyAgg exWeek (4, "A")).monotony = some (5 / Real.sqrt 2) ∧
    |5 / Real.sqrt 2 - 3.536| < 1 / 1000 ∧
    (weeklyAgg exWeek (4, "A")).strain = some (80 / Real.sqrt 2) ∧
    |80 / Real.sqrt 2 - 56.6| < 1 / 10 := by
  refine ⟨by norm_num [distance_km, ex4a], by norm_num [load, distance_km, ex4a],
    by norm_num [distance_km, ex4b], by norm_num [load, distance_km, ex4b],
    ?_, ?_, ?_, ?_, ?_, ?_, ?_, ?_⟩
  · simp only [weeklyAgg, bucket_exWeek]
    exact total_distance_exWeek
  · simp only [weeklyAgg, bucket_exWeek]
    exact total_load_exWeek
  · simp only [weeklyAgg, bucket_exWeek]
    exact mean_exWeek
  · simp only [weeklyAgg, bucket_exWeek]
    exact std_exWeek
  · simp only [weeklyAgg, bucket_exWeek]
    exact monotony_exWeek
  · rw [five_div_sqrt2, abs_lt]
    constructor <;> nlinarith [sqrt2_lb, sqrt2_ub]
  · simp only [weeklyAgg, bucket_exWeek]
    exact strain_exWeek
  · rw [eighty_div_sqrt2, abs_lt]
    constructor <;> nlinarith [sqrt2_lb, sqrt2_ub]

end Swimmer
